import Mathlib

/-!
Shallow embedding of the clean-architecture example (TypeScript).

Vocabulary map between the specification and the code: the spec's
`identifier` is the code's `id`, `displayName` is `username`, `secret` is
`password`, the Storage Gateway is `Repository`/`Database`, the Output
Formatter is `Presenter`, the Orchestrator is `Interactor`, and the Entry
Point is `Controller`.  The TypeScript code throws plain `Error` values
distinguished only by their message string; `Err` models that.  The spec's
`ValidationError` corresponds to the "... is required" messages and its
`NotFoundError` to the message "Item not found" thrown by `Database.get`.

Effects are made explicit: each interactor operation returns an `Outcome`
holding the optional thrown error, the database state at the end of the
call, the list of storage-gateway calls made, and the list of payloads
handed to the presenter, in order.
-/

/-- entities/user.ts: `class User { constructor(public id, public username, public password) }`. -/
structure User where
  id : String
  username : String
  password : String
deriving DecidableEq

/-- use-cases/input-data.ts: `id` is a required string; `username` and
`password` are optional (the Controller supplies `username` only for writes
and never supplies `password`). -/
structure InputData where
  id : String
  username : Option String
  password : Option String
deriving DecidableEq

/-- use-cases/output-data.ts: `class OutputData { constructor(public id, public username) }`. -/
structure OutputData where
  id : String
  username : String
deriving DecidableEq

/-- interface-adapters/interfaces/view-model.ts: a plain object with
optional `id` and `username`, created empty in main.ts (`{}`). -/
structure ViewModel where
  id : Option String
  username : Option String
deriving DecidableEq

/-- A thrown `new Error(message)`. -/
structure Err where
  message : String
deriving DecidableEq

/-- JavaScript truthiness test `!x` applied to an optional string field:
true when the field is `undefined` or the empty string. -/
def isFalsyOpt : Option String → Bool
  | none => true
  | some s => s.isEmpty

/-- framework-and-drivers/database.ts: `Database<T>` instantiated at
`T = User` as in main.ts; `items` is the private backing array. -/
structure Database where
  items : List User
deriving DecidableEq

/-- `Database.get`: `items.find(item => item.id === id)`, throwing
`Error("Item not found")` when no item matches. -/
def Database.get (db : Database) (id : String) : Except Err User :=
  match db.items.find? (fun item => item.id == id) with
  | some item => .ok item
  | none => .error ⟨"Item not found"⟩

/-- `Database.create`: `items.push(item)` — unconditional append, total. -/
def Database.create (db : Database) (item : User) : Database :=
  ⟨db.items ++ [item]⟩

/-- interface-adapters/repository.ts: pass-through to the database. -/
def Repository.getUser (db : Database) (id : String) : Except Err User :=
  Database.get db id

/-- interface-adapters/repository.ts: pass-through to the database. -/
def Repository.createUser (db : Database) (user : User) : Database :=
  Database.create db user

/-- One call made on the storage gateway (repository/database). -/
inductive GatewayCall where
  | fetch (id : String)
  | insert (user : User)
deriving DecidableEq

/-- Observable effects of one interactor operation: the thrown error if
any (`none` means the void call returned normally), the database state at
the end of the call, the storage-gateway calls in order, and the payloads
handed to the presenter in order. -/
structure Outcome where
  error : Option Err
  db : Database
  gateway : List GatewayCall
  presents : List OutputData
deriving DecidableEq

/-- use-cases/interactor.ts `executeGetUser`: validates `inputData.id`,
fetches through the repository (propagating its error unchanged), builds
`outputData` from `id` and `username` only, and presents it. -/
def Interactor.executeGetUser (inputData : InputData) (db : Database) : Outcome :=
  if inputData.id.isEmpty then
    ⟨some ⟨"id is required"⟩, db, [], []⟩
  else
    match Repository.getUser db inputData.id with
    | .error e => ⟨some e, db, [.fetch inputData.id], []⟩
    | .ok user => ⟨none, db, [.fetch inputData.id], [⟨user.id, user.username⟩]⟩

/-- use-cases/interactor.ts `executeCreateUser`: checks `id`, then
`password`, then `username`, each short-circuiting the rest; on success
builds a `User` from the three fields, inserts it, and presents `id` and
`username`. -/
def Interactor.executeCreateUser (inputData : InputData) (db : Database) : Outcome :=
  if inputData.id.isEmpty then
    ⟨some ⟨"id is required"⟩, db, [], []⟩
  else if isFalsyOpt inputData.password then
    ⟨some ⟨"password is required"⟩, db, [], []⟩
  else if isFalsyOpt inputData.username then
    ⟨some ⟨"username is required"⟩, db, [], []⟩
  else
    let user : User := ⟨inputData.id, inputData.username.getD "", inputData.password.getD ""⟩
    ⟨none, Repository.createUser db user, [.insert user], [⟨user.id, user.username⟩]⟩

/-- interface-adapters/presenter.ts `present`: assigns
`viewModel.id = outputData.id` and `viewModel.username = outputData.username`,
mutating the shared view model in place. -/
def Presenter.present (viewModel : ViewModel) (outputData : OutputData) : ViewModel :=
  { viewModel with id := some outputData.id, username := some outputData.username }

/-- The view model after a sequence of presenter invocations. -/
def presentAll (viewModel : ViewModel) (outs : List OutputData) : ViewModel :=
  outs.foldl Presenter.present viewModel

/-- interface-adapters/controller.ts `getUser(id)`: packages the bare
identifier into the input payload. -/
def Controller.getUser (id : String) : InputData :=
  ⟨id, none, none⟩

/-- interface-adapters/controller.ts `createUser(id, username)`: packages
its two arguments into the input payload; it has no password parameter, so
the payload's `password` is `undefined`. -/
def Controller.createUser (id : String) (username : String) : InputData :=
  ⟨id, some username, none⟩

/-- The controller's read trigger forwarded to the interactor unchanged. -/
def Controller.runGetUser (id : String) (db : Database) : Outcome :=
  Interactor.executeGetUser (Controller.getUser id) db

/-- The controller's write trigger forwarded to the interactor unchanged. -/
def Controller.runCreateUser (id : String) (username : String) (db : Database) : Outcome :=
  Interactor.executeCreateUser (Controller.createUser id username) db

/-- C9: executeGetUser never modifies storage: for every read request and
every storage state, whether the call succeeds or fails, the database's
sequence of stored items is identical before and after the call. -/
theorem c9_get_preserves_db (inputData : InputData) (db : Database) :
    (Interactor.executeGetUser inputData db).db = db := by
  unfold Interactor.executeGetUser
  split
  · rfl
  · split <;> rfl

/-- Helper: a search skips a prefix on which the predicate is false. -/
theorem find?_append_of_none {α : Type} (p : α → Bool) (l₁ l₂ : List α)
    (h : ∀ x ∈ l₁, p x = false) : (l₁ ++ l₂).find? p = l₂.find? p := by
  induction l₁ with
  | nil => rfl
  | cons a t ih =>
    have ha : p a = false := h a (List.mem_cons_self a t)
    simp only [List.cons_append, List.find?, ha]
    exact ih fun x hx => h x (List.mem_cons_of_mem a hx)

/-- C2: executeCreateUser checks id, then password, then username, each
check short-circuiting the rest; the first falsy field determines the
error message, and on every violation the database is untouched and no
gateway call and no presenter call occurs. -/
theorem c2_validation_order (inputData : InputData) (db : Database) :
    (inputData.id.isEmpty = true →
      Interactor.executeCreateUser inputData db = ⟨some ⟨"id is required"⟩, db, [], []⟩) ∧
    (inputData.id.isEmpty = false → isFalsyOpt inputData.password = true →
      Interactor.executeCreateUser inputData db = ⟨some ⟨"password is required"⟩, db, [], []⟩) ∧
    (inputData.id.isEmpty = false → isFalsyOpt inputData.password = false →
      isFalsyOpt inputData.username = true →
      Interactor.executeCreateUser inputData db = ⟨some ⟨"username is required"⟩, db, [], []⟩) := by
  refine ⟨fun h1 => ?_, fun h1 h2 => ?_, fun h1 h2 h3 => ?_⟩ <;>
    simp [Interactor.executeCreateUser, h1, *]

/-- Witness for C2 at concrete inputs: one violation of each kind. -/
theorem c2_witness :
    Interactor.executeCreateUser ⟨"", some "alice", some "s"⟩ ⟨[]⟩ =
      ⟨some ⟨"id is required"⟩, ⟨[]⟩, [], []⟩ ∧
    Interactor.executeCreateUser ⟨"1", some "alice", none⟩ ⟨[]⟩ =
      ⟨some ⟨"password is required"⟩, ⟨[]⟩, [], []⟩ ∧
    Interactor.executeCreateUser ⟨"1", none, some "s"⟩ ⟨[]⟩ =
      ⟨some ⟨"username is required"⟩, ⟨[]⟩, [], []⟩ :=
  ⟨(c2_validation_order ⟨"", some "alice", some "s"⟩ ⟨[]⟩).1 (by decide),
   (c2_validation_order ⟨"1", some "alice", none⟩ ⟨[]⟩).2.1 (by decide) (by decide),
   (c2_validation_order ⟨"1", none, some "s"⟩ ⟨[]⟩).2.2 (by decide) (by decide) (by decide)⟩

/-- C3: the Controller's write trigger has only two parameters (id and
username); the payload it packages carries no password, so every write
through the Entry Point fails the interactor's password check — evaluated
here at the failing input createUser("1", "alice") on the empty database. -/
theorem c3_controller_write_has_no_secret :
    (Controller.createUser "1" "alice").password = none ∧
    Controller.runCreateUser "1" "alice" ⟨[]⟩ =
      ⟨some ⟨"password is required"⟩, ⟨[]⟩, [], []⟩ := by
  decide

/-- C5 counterexample: the not-found message thrown by the code is
"Item not found" (capital I), not "item not found" as the claim quotes it;
the rest of the claim's behavior holds at this input. -/
theorem c5_counterexample :
    (Interactor.executeGetUser ⟨"zzz", none, none⟩ ⟨[]⟩).error = some ⟨"Item not found"⟩ ∧
    (Interactor.executeGetUser ⟨"zzz", none, none⟩ ⟨[]⟩).presents = [] ∧
    ("Item not found" : String) ≠ "item not found" := by
  decide

/-- C5 amended: for every non-empty identifier matching no stored record,
executeGetUser fails with the database's error "Item not found" propagated
unchanged, and the presenter is never invoked. -/
theorem c5_not_found (id : String) (db : Database)
    (hid : id.isEmpty = false) (hmiss : ∀ r ∈ db.items, r.id ≠ id) :
    Database.get db id = .error ⟨"Item not found"⟩ ∧
    Interactor.executeGetUser ⟨id, none, none⟩ db =
      ⟨some ⟨"Item not found"⟩, db, [GatewayCall.fetch id], []⟩ := by
  have hfind : db.items.find? (fun item => item.id == id) = none := by
    rw [show db.items = db.items ++ [] by simp,
      find?_append_of_none _ db.items [] fun x hx => by
        simpa [beq_eq_false_iff_ne] using hmiss x hx]
    rfl
  have hget : Database.get db id = .error ⟨"Item not found"⟩ := by
    simp [Database.get, hfind]
  exact ⟨hget, by simp [Interactor.executeGetUser, hid, Repository.getUser, hget]⟩

/-- Witness for C5 at a concrete input: reading "2" from a store holding
only "1". -/
theorem c5_witness :
    Interactor.executeGetUser ⟨"2", none, none⟩ ⟨[⟨"1", "alice", "p"⟩]⟩ =
      ⟨some ⟨"Item not found"⟩, ⟨[⟨"1", "alice", "p"⟩]⟩, [GatewayCall.fetch "2"], []⟩ :=
  (c5_not_found "2" ⟨[⟨"1", "alice", "p"⟩]⟩ (by decide) (by decide)).2

/-- C6 counterexample: the validation message thrown by the code is
"id is required", not "identifier is required" as the claim quotes it; the
rest of the claim's behavior holds at this input. -/
theorem c6_counterexample :
    (Interactor.executeGetUser ⟨"", none, none⟩ ⟨[]⟩).error = some ⟨"id is required"⟩ ∧
    (Interactor.executeGetUser ⟨"", none, none⟩ ⟨[]⟩).gateway = [] ∧
    ("id is required" : String) ≠ "identifier is required" := by
  decide

/-- C6 amended: for every read request whose identifier is empty,
executeGetUser fails with the validation message "id is required" and
performs zero storage-gateway calls (and zero presenter calls). -/
theorem c6_empty_id_validation (inputData : InputData) (db : Database)
    (h : inputData.id.isEmpty = true) :
    Interactor.executeGetUser inputData db = ⟨some ⟨"id is required"⟩, db, [], []⟩ := by
  simp [Interactor.executeGetUser, h]

/-- Witness for C6 at a concrete input: an empty identifier against a
non-empty store. -/
theorem c6_witness :
    Interactor.executeGetUser ⟨"", none, none⟩ ⟨[⟨"1", "alice", "p"⟩]⟩ =
      ⟨some ⟨"id is required"⟩, ⟨[⟨"1", "alice", "p"⟩]⟩, [], []⟩ :=
  c6_empty_id_validation ⟨"", none, none⟩ ⟨[⟨"1", "alice", "p"⟩]⟩ (by decide)

/-- C8: each interactor operation invokes the presenter exactly once on
success and zero times on failure, and a successful executeCreateUser
performs exactly one gateway call, the insert of the new user. -/
theorem c8_call_counts (inputData : InputData) (db : Database) :
    ((Interactor.executeGetUser inputData db).error = none →
      (Interactor.executeGetUser inputData db).presents.length = 1) ∧
    ((Interactor.executeGetUser inputData db).error ≠ none →
      (Interactor.executeGetUser inputData db).presents = []) ∧
    ((Interactor.executeCreateUser inputData db).error = none →
      (Interactor.executeCreateUser inputData db).presents.length = 1) ∧
    ((Interactor.executeCreateUser inputData db).error ≠ none →
      (Interactor.executeCreateUser inputData db).presents = []) ∧
    ((Interactor.executeCreateUser inputData db).error = none →
      (Interactor.executeCreateUser inputData db).gateway =
        [GatewayCall.insert ⟨inputData.id, inputData.username.getD "", inputData.password.getD ""⟩]) := by
  refine ⟨?_, ?_, ?_, ?_, ?_⟩ <;>
    · simp only [Interactor.executeGetUser, Interactor.executeCreateUser]
      split <;> (try split) <;> (try split) <;> simp

/-- Witness for C8 at concrete inputs: a successful read, a failed read,
and a successful write. -/
theorem c8_witness :
    (Interactor.executeGetUser ⟨"1", none, none⟩ ⟨[⟨"1", "alice", "p"⟩]⟩).presents.length = 1 ∧
    (Interactor.executeGetUser ⟨"", none, none⟩ ⟨[]⟩).presents = [] ∧
    (Interactor.executeCreateUser ⟨"1", some "alice", some "s"⟩ ⟨[]⟩).gateway =
      [GatewayCall.insert ⟨"1", "alice", "s"⟩] :=
  ⟨(c8_call_counts ⟨"1", none, none⟩ ⟨[⟨"1", "alice", "p"⟩]⟩).1 (by decide),
   (c8_call_counts ⟨"", none, none⟩ ⟨[]⟩).2.1 (by decide),
   (c8_call_counts ⟨"1", some "alice", some "s"⟩ ⟨[]⟩).2.2.2.2 (by decide)⟩

/-- C7: Database.create unconditionally appends (it is total, hence never
fails); two valid writes with the same identifier both succeed; and
Database.get resolves duplicates by returning the first matching record in
insertion order. -/
theorem c7_insert_appends_get_first_match :
    (∀ (db : Database) (u : User), (Database.create db u).items = db.items ++ [u]) ∧
    (∀ (in₁ in₂ : InputData) (db : Database),
      (Interactor.executeCreateUser in₁ db).error = none →
      in₂.id = in₁.id →
      isFalsyOpt in₂.password = false →
      isFalsyOpt in₂.username = false →
      (Interactor.executeCreateUser in₂ (Interactor.executeCreateUser in₁ db).db).error = none) ∧
    (∀ (db : Database) (id : String) (u : User) (l₁ l₂ : List User),
      db.items = l₁ ++ u :: l₂ → u.id = id → (∀ v ∈ l₁, v.id ≠ id) →
      Database.get db id = .ok u) := by
  refine ⟨fun db u => rfl, ?_, ?_⟩
  · intro in₁ in₂ db h1 heq hp2 hu2
    cases hid1 : in₁.id.isEmpty with
    | true => simp [Interactor.executeCreateUser, hid1] at h1
    | false =>
      have hid2 : in₂.id.isEmpty = false := by rw [heq]; exact hid1
      simp [Interactor.executeCreateUser, hid2, hp2, hu2]
  · intro db id u l₁ l₂ hdb hu hl₁
    subst hu
    have hfind : db.items.find? (fun item => item.id == u.id) = some u := by
      rw [hdb, find?_append_of_none _ l₁ _ fun x hx => by
        simpa [beq_eq_false_iff_ne] using hl₁ x hx]
      simp [List.find?]
    simp [Database.get, hfind]

/-- Witness for C7 at concrete inputs: one append, two same-id writes both
succeeding, and a fetch returning the first of two records with id "1". -/
theorem c7_witness :
    (Database.create ⟨[]⟩ ⟨"1", "alice", "p"⟩).items = [⟨"1", "alice", "p"⟩] ∧
    (Interactor.executeCreateUser ⟨"1", some "bob", some "q"⟩
        (Interactor.executeCreateUser ⟨"1", some "alice", some "p"⟩ ⟨[]⟩).db).error = none ∧
    Database.get ⟨[⟨"1", "alice", "p"⟩, ⟨"1", "bob", "q"⟩]⟩ "1" = .ok ⟨"1", "alice", "p"⟩ :=
  ⟨c7_insert_appends_get_first_match.1 ⟨[]⟩ ⟨"1", "alice", "p"⟩,
   c7_insert_appends_get_first_match.2.1 ⟨"1", some "alice", some "p"⟩ ⟨"1", some "bob", some "q"⟩
     ⟨[]⟩ (by decide) rfl (by decide) (by decide),
   c7_insert_appends_get_first_match.2.2 ⟨[⟨"1", "alice", "p"⟩, ⟨"1", "bob", "q"⟩]⟩ "1"
     ⟨"1", "alice", "p"⟩ [] [⟨"1", "bob", "q"⟩] rfl rfl (by decide)⟩

/-- C10: Presenter.present overwrites exactly the id and username fields
of the shared view model, and after any non-empty sequence of presenter
invocations the view model holds exactly the id and username of the most
recent one (last write wins). -/
theorem c10_present_last_write :
    (∀ (vm : ViewModel) (o : OutputData),
      Presenter.present vm o = ⟨some o.id, some o.username⟩) ∧
    (∀ (outs : List OutputData) (vm : ViewModel) (h : outs ≠ []),
      presentAll vm outs =
        ⟨some ((outs.getLast h).id), some ((outs.getLast h).username)⟩) := by
  refine ⟨fun vm o => rfl, ?_⟩
  intro outs
  induction outs with
  | nil => intro vm h; exact absurd rfl h
  | cons o t ih =>
    intro vm h
    cases t with
    | nil => rfl
    | cons b t' =>
      have h2 : (b :: t') ≠ [] := List.cons_ne_nil b t'
      have hstep : presentAll vm (o :: b :: t') =
          presentAll (Presenter.present vm o) (b :: t') := rfl
      rw [hstep, ih (Presenter.present vm o) h2, List.getLast_cons h2]

/-- Witness for C10 at a concrete input: two presentations, the second
one winning. -/
theorem c10_witness :
    presentAll ⟨none, none⟩ [⟨"1", "alice"⟩, ⟨"2", "bob"⟩] = ⟨some "2", some "bob"⟩ :=
  c10_present_last_write.2 [⟨"1", "alice"⟩, ⟨"2", "bob"⟩] ⟨none, none⟩ (by decide)

/-- C1 counterexample: starting from the empty store, write bob under id
"1", then write alice under the same id (accepted — no uniqueness check),
then read "1" with no intervening insert: the presenter receives bob's
displayName, not alice's, because Database.get returns the first match. -/
theorem c1_counterexample :
    (Interactor.executeCreateUser ⟨"1", some "alice", some "s"⟩
        (Interactor.executeCreateUser ⟨"1", some "bob", some "p"⟩ ⟨[]⟩).db).error = none ∧
    (Interactor.executeGetUser ⟨"1", none, none⟩
        (Interactor.executeCreateUser ⟨"1", some "alice", some "s"⟩
          (Interactor.executeCreateUser ⟨"1", some "bob", some "p"⟩ ⟨[]⟩).db).db).presents =
      [⟨"1", "bob"⟩] ∧
    ("bob" : String) ≠ "alice" := by
  decide

/-- C1 amended: if additionally no record with the written identifier was
stored before the write, then an accepted write followed by a read of the
same identifier, with no intervening insert, hands the presenter exactly
the written id and username. -/
theorem c1_read_after_write (inputData : InputData) (db : Database) (u : String)
    (hu : inputData.username = some u)
    (hacc : (Interactor.executeCreateUser inputData db).error = none)
    (hfresh : ∀ r ∈ db.items, r.id ≠ inputData.id) :
    (Interactor.executeGetUser ⟨inputData.id, none, none⟩
        (Interactor.executeCreateUser inputData db).db).presents =
      [⟨inputData.id, u⟩] := by
  cases hid : inputData.id.isEmpty with
  | true => simp [Interactor.executeCreateUser, hid] at hacc
  | false =>
    cases hp : isFalsyOpt inputData.password with
    | true => simp [Interactor.executeCreateUser, hid, hp] at hacc
    | false =>
      cases hn : isFalsyOpt inputData.username with
      | true => simp [Interactor.executeCreateUser, hid, hp, hn] at hacc
      | false =>
        have hdb : (Interactor.executeCreateUser inputData db).db =
            ⟨db.items ++
              [(⟨inputData.id, inputData.username.getD "", inputData.password.getD ""⟩ : User)]⟩ := by
          simp [Interactor.executeCreateUser, hid, hp, hn, Repository.createUser,
            Database.create]
        rw [hdb]
        simp only [Interactor.executeGetUser, Repository.getUser, Database.get, hid,
          Bool.false_eq_true, if_false]
        rw [find?_append_of_none _ db.items _ fun x hx => by
          simpa [beq_eq_false_iff_ne] using hfresh x hx]
        simp [List.find?, hu]

/-- Witness for C1 (amended) at a concrete input: a fresh write of alice
under id "1" followed by a read of "1". -/
theorem c1_witness :
    (Interactor.executeGetUser ⟨"1", none, none⟩
        (Interactor.executeCreateUser ⟨"1", some "alice", some "s"⟩ ⟨[]⟩).db).presents =
      [⟨"1", "alice"⟩] :=
  c1_read_after_write ⟨"1", some "alice", some "s"⟩ ⟨[]⟩ "alice" rfl (by decide) (by decide)

/-- Two stored users agree on everything the result payload may reveal:
same id and same username, with no constraint on the passwords. -/
def sameVisible (u v : User) : Prop := u.id = v.id ∧ u.username = v.username

/-- Helper: searching two pointwise sameVisible stores for an id yields
results with the same visible projection. -/
theorem find?_sameVisible (id : String) {l₁ l₂ : List User}
    (h : List.Forall₂ sameVisible l₁ l₂) :
    Option.map (fun u => OutputData.mk u.id u.username) (l₁.find? fun u => u.id == id) =
      Option.map (fun u => OutputData.mk u.id u.username) (l₂.find? fun u => u.id == id) := by
  induction h with
  | nil => rfl
  | cons hr hrest ih =>
    obtain ⟨hid, hun⟩ := hr
    rename_i a b t₁ t₂
    cases hb : (b.id == id) with
    | true =>
      have ha : (a.id == id) = true := by rw [hid]; exact hb
      simp [List.find?, ha, hb, hid, hun]
    | false =>
      have ha : (a.id == id) = false := by rw [hid]; exact hb
      simpa [List.find?, ha, hb] using ih

/-- C4: the data handed to the presenter never depends on any secret —
for reads, two stores whose records agree on id and username (passwords
arbitrary) produce identical presenter payloads and identical errors; for
writes, two requests differing only in the supplied password (equally
falsy, e.g. both non-empty) produce identical presenter payloads and
identical errors. The payload type itself has only the id and username
fields. -/
theorem c4_secret_noninterference :
    (∀ (inputData : InputData) (db₁ db₂ : Database),
      List.Forall₂ sameVisible db₁.items db₂.items →
      (Interactor.executeGetUser inputData db₁).presents =
          (Interactor.executeGetUser inputData db₂).presents ∧
        (Interactor.executeGetUser inputData db₁).error =
          (Interactor.executeGetUser inputData db₂).error) ∧
    (∀ (inputData : InputData) (p : Option String) (db : Database),
      isFalsyOpt inputData.password = isFalsyOpt p →
      (Interactor.executeCreateUser inputData db).presents =
          (Interactor.executeCreateUser ⟨inputData.id, inputData.username, p⟩ db).presents ∧
        (Interactor.executeCreateUser inputData db).error =
          (Interactor.executeCreateUser ⟨inputData.id, inputData.username, p⟩ db).error) := by
  constructor
  · intro inputData db₁ db₂ hrel
    cases hid : inputData.id.isEmpty with
    | true => simp [Interactor.executeGetUser, hid]
    | false =>
      have h := find?_sameVisible inputData.id hrel
      simp only [Interactor.executeGetUser, Repository.getUser, Database.get, hid]
      cases h₁ : db₁.items.find? (fun item => item.id == inputData.id) with
      | none =>
        cases h₂ : db₂.items.find? (fun item => item.id == inputData.id) with
        | none => simp
        | some v => rw [h₁, h₂] at h; simp at h
      | some u' =>
        cases h₂ : db₂.items.find? (fun item => item.id == inputData.id) with
        | none => rw [h₁, h₂] at h; simp at h
        | some v' =>
          rw [h₁, h₂] at h
          simp at h
          simp [h.1, h.2]
  · intro inputData p db hfal
    cases hid : inputData.id.isEmpty with
    | true => simp [Interactor.executeCreateUser, hid]
    | false =>
      cases hp : isFalsyOpt inputData.password with
      | true =>
        have hp' : isFalsyOpt p = true := by rw [← hfal]; exact hp
        simp [Interactor.executeCreateUser, hid, hp, hp']
      | false =>
        have hp' : isFalsyOpt p = false := by rw [← hfal]; exact hp
        cases hn : isFalsyOpt inputData.username with
        | true => simp [Interactor.executeCreateUser, hid, hp, hp', hn]
        | false => simp [Interactor.executeCreateUser, hid, hp, hp', hn]

/-- Witness for C4 at concrete inputs: a read against two stores differing
only in the stored password, and two writes differing only in the supplied
password. -/
theorem c4_witness :
    (Interactor.executeGetUser ⟨"1", none, none⟩ ⟨[⟨"1", "alice", "secretA"⟩]⟩).presents =
      (Interactor.executeGetUser ⟨"1", none, none⟩ ⟨[⟨"1", "alice", "secretB"⟩]⟩).presents ∧
    (Interactor.executeCreateUser ⟨"2", some "bob", some "pwA"⟩ ⟨[]⟩).presents =
      (Interactor.executeCreateUser ⟨"2", some "bob", some "pwB"⟩ ⟨[]⟩).presents :=
  ⟨(c4_secret_noninterference.1 ⟨"1", none, none⟩ ⟨[⟨"1", "alice", "secretA"⟩]⟩
      ⟨[⟨"1", "alice", "secretB"⟩]⟩ (List.Forall₂.cons ⟨rfl, rfl⟩ List.Forall₂.nil)).1,
   (c4_secret_noninterference.2 ⟨"2", some "bob", some "pwA"⟩ (some "pwB") ⟨[]⟩ (by decide)).1⟩
